import Mathlib

/-!
Shallow embedding of the AWS OpenSearch client adapter
(src/vectordb_bench/backend/clients/aws_opensearch/aws_opensearch.py) and
proofs about its behaviour.

The adapter delegates networking to the opensearchpy client; remote
interactions are modelled as explicit parameters (the outcome of each
remote call), and stateful methods are modelled as functions from the
adapter state and those outcomes to results plus an event trace.
-/

namespace VDB

/-- Modelled from the spec: the metric-type enum is imported from the api
module, which is not part of the provided source; the spec lists the
variants L2, COSINE and INNER_PRODUCT. -/
inductive MetricType
| L2
| COSINE
| INNER_PRODUCT
deriving DecidableEq

/-- Modelled from the spec: the engine-variant enum AWSOS_Engine is
imported from the config module, which is not part of the provided source.
The spec names the faiss-based variant and the source compares against
AWSOS_Engine.faiss; the other engine tags of the service are modelled as
the remaining distinct variants. -/
inductive AWSOS_Engine
| nmslib
| faiss
| lucene
deriving DecidableEq

/-- JSON-shaped documents exchanged with the remote engine. Numeric vector
components are opaque payloads for the adapter (never inspected or
computed with), so they are modelled as integers. Objects keep field
insertion order, as Python dicts do. -/
inductive Json
| null
| bool (b : Bool)
| num (n : Int)
| str (s : String)
| arr (xs : List Json)
| obj (fields : List (String × Json))

/-- Field lookup in a JSON object (first matching key). -/
def Json.lookup : Json → String → Option Json
| .obj fields, key => List.lookup key fields
| _, _ => none

/-- Modelled from the spec: AWSOpenSearchIndexConfig is imported from the
config module, which is not part of the provided source. The source reads
its engine and metric_type fields and calls its index_param() method for
the vector-field method mapping; the method parameters are carried as an
opaque JSON value. -/
structure AWSOpenSearchIndexConfig where
  engine : AWSOS_Engine
  metric_type : MetricType
  index_param : Json

/-- Vector payloads (list of float in the source) are opaque to the
adapter; components are modelled as integers. -/
abbrev Vec := List Int

/-- The adapter state: the fields set by AWSOpenSearch.__init__ that the
modelled operations read. client is the scoped session handle (None until
init is entered; "del self.client" after a normal exit is modelled as the
cleared reference). -/
structure AWSOpenSearch where
  client : Option Unit
  dim : Nat
  index_name : String
  id_col_name : String
  vector_col_name : String
  case_config : AWSOpenSearchIndexConfig

/-- category_col_names as computed in __init__. -/
def category_col_names : List String :=
  [2, 5, 10, 100, 1000].map (fun categoryCount => "scalar-" ++ toString categoryCount)

/-- need_normalize_cosine from the source: compares the stored engine with
AWSOS_Engine.faiss and the stored metric with MetricType.COSINE. -/
def need_normalize_cosine (self : AWSOpenSearch) : Bool :=
  let engine := self.case_config.engine
  let metric := self.case_config.metric_type
  if engine = AWSOS_Engine.faiss ∧ metric = MetricType.COSINE then
    true
  else
    false

/-- Python-level failures surfaced by the adapter: the failed precondition
assert, list indexing out of range, and exceptions raised by the remote
client (carried as their message). -/
inductive PyErr
| assertionError
| indexError
| exc (msg : String)
deriving DecidableEq

/-- Log events emitted by the adapter. -/
inductive LogEvent
| info (msg : String)
| warning (msg : String)
deriving DecidableEq

/-- The index-level settings built by _create_index. -/
def create_index_settings : Json :=
  let number_of_shards : Int := 5
  .obj [("index", .obj [
    ("knn", .bool true),
    ("refresh_interval", .str "-1"),
    ("number_of_replicas", .num 0),
    ("number_of_shards", .num number_of_shards)])]

/-- The field mappings built by _create_index: the integer id column, one
keyword column per category column, and the knn_vector column with the
configured dimension and method parameters. -/
def create_index_mappings (self : AWSOpenSearch) : Json :=
  .obj [("properties", .obj (
    [(self.id_col_name, .obj [("type", .str "integer")])]
    ++ category_col_names.map (fun categoryCol => (categoryCol, .obj [("type", .str "keyword")]))
    ++ [(self.vector_col_name, .obj [
          ("type", .str "knn_vector"),
          ("dimension", .num self.dim),
          ("method", self.case_config.index_param)])]))]

/-- The body dict(settings=settings, mappings=mappings) passed to
indices.create by _create_index. -/
def create_index_body (self : AWSOpenSearch) : Json :=
  .obj [("settings", create_index_settings), ("mappings", create_index_mappings self)]

/-- The observable outcome of one _create_index call: the request it
issued (target index name and body), the log events, and the result. -/
structure CreateIndexRun where
  request : String × Json
  logs : List LogEvent
  result : Except String Unit

/-- One run of _create_index; createResult is the remote outcome of the
indices.create call. On an exception the source logs a warning and
re-raises the same exception (raise e from None). -/
def create_index_run (self : AWSOpenSearch) (createResult : Except String Unit) :
    CreateIndexRun :=
  match createResult with
  | .ok _ =>
    { request := (self.index_name, create_index_body self)
      logs := []
      result := .ok () }
  | .error e =>
    { request := (self.index_name, create_index_body self)
      logs := [.warning ("Failed to create index: " ++ self.index_name ++ " error: " ++ e)]
      result := .error e }

/-- One run of the scoped session init (a contextlib.contextmanager
generator). The generator assigns self.client, yields once, and clears the
reference after the yield with no try/finally around the yield: on a
normal exit the lines after the yield run and clear the client, while an
exception raised by the with-body is thrown into the generator at the
yield point and propagates out of it, so the lines after the yield never
execute on that path. The body maps the state at the yield to a final
state and an optional exception. -/
def init_run (self : AWSOpenSearch)
    (body : AWSOpenSearch → AWSOpenSearch × Option PyErr) :
    AWSOpenSearch × Option PyErr :=
  let entered := { self with client := some () }
  match body entered with
  | (s2, none) => ({ s2 with client := none }, none)
  | (s2, some e) => (s2, some e)

/-- The bulk action document built by insert_embeddings for position i:
{"_index": index_name, "_id": metadata[i], vector_col_name: v}. -/
def insert_doc (self : AWSOpenSearch) (docId : Int) (v : Vec) : Json :=
  .obj [("_index", .str self.index_name), ("_id", .num docId),
        (self.vector_col_name, .arr (v.map .num))]

/-- The document-building loop of insert_embeddings from position i on the
remaining embeddings: metadata[i] raises IndexError as soon as the
metadata list is shorter than the enumerated embeddings demand. -/
def build_insert_data_from (self : AWSOpenSearch) (metadata : List Int) :
    Nat → List Vec → Except PyErr (List Json)
| _, [] => .ok []
| i, v :: vs =>
  match metadata[i]? with
  | none => .error .indexError
  | some docId =>
    match build_insert_data_from self metadata (i + 1) vs with
    | .ok rest => .ok (insert_doc self docId v :: rest)
    | .error e => .error e

/-- The whole document-building loop (for i, v in enumerate(embeddings)),
which runs before the try block of insert_embeddings. The count variable
of the source equals the length of the built list. -/
def build_insert_data (self : AWSOpenSearch) (embeddings : List Vec)
    (metadata : List Int) : Except PyErr (List Json) :=
  build_insert_data_from self metadata 0 embeddings

/-- Observable interactions of insert_embeddings: a bulk request issued
with its action list, and a blocking sleep measured in seconds. -/
inductive InsertEvent
| bulkRequest (actions : List Json)
| sleep (seconds : Nat)

/-- A fuel-bounded run of insert_embeddings. bulk n abstracts the remote
interaction of the try block on the n-th attempt: either the (success,
item) stream collected from helpers.parallel_bulk (with the stats call
only logged), or the exception the try block raised. fuel bounds the
number of attempts; the result is none when the call is still retrying as
fuel runs out. On an exception the source logs a warning, sleeps 10
seconds and re-invokes itself with the same embeddings and metadata; on
success it returns (count, None) whatever the per-item success flags, and
the success/failure partition is only logged. -/
def insert_embeddings_run (self : AWSOpenSearch)
    (bulk : Nat → Except String (List (Bool × Json)))
    (embeddings : List Vec) (metadata : List Int) :
    Nat → Nat → List InsertEvent × Option (Except PyErr (Nat × Option String))
| 0, _ => ([], none)
| fuel + 1, attempt =>
  match self.client with
  | none => ([], some (.error .assertionError))
  | some _ =>
    match build_insert_data self embeddings metadata with
    | .error e => ([], some (.error e))
    | .ok insert_data =>
      match bulk attempt with
      | .ok _items =>
        ([.bulkRequest insert_data], some (.ok (insert_data.length, none)))
      | .error _e =>
        let rest := insert_embeddings_run self bulk embeddings metadata fuel (attempt + 1)
        (.bulkRequest insert_data :: .sleep 10 :: rest.1, rest.2)

/-- One hit of a search response, carrying its integer-parsed _id (the
source stores integer ids and applies int() to each hit id). -/
structure Hit where
  id : Int
deriving DecidableEq

/-- The part of the search response the source turns into its return value:
resp["hits"]["hits"] in engine rank order (took, _shards and hits.total are
only logged). -/
structure SearchResponse where
  hits : List Hit
deriving DecidableEq

/-- The k-NN query body built by search_embedding: size k, a knn clause on
the vector field with the query vector and k, and _source excluding the
vector field. -/
def search_body (self : AWSOpenSearch) (query : Vec) (k : Nat) : Json :=
  .obj [("size", .num k),
        ("query", .obj [("knn", .obj [(self.vector_col_name,
          .obj [("vector", .arr (query.map .num)), ("k", .num k)])])]),
        ("_source", .obj [("exclude", .str self.vector_col_name)])]

/-- One run of search_embedding. search is the remote outcome as a
function of the issued body; the filters argument is part of the signature
in the source but never referenced by the function body. On success the
source returns the integer _id of each hit in response order; on an
exception it logs a warning and re-raises (raise e from None). -/
def search_embedding (self : AWSOpenSearch) (query : Vec) (k : Nat)
    (filters : Option Json)
    (search : Json → Except String SearchResponse) : Except PyErr (List Int) :=
  match self.client with
  | none => .error .assertionError
  | some _ =>
    let body := search_body self query k
    match search body with
    | .ok resp => .ok (resp.hits.map (fun d => d.id))
    | .error e => .error (.exc e)

lemma build_insert_data_from_length (self : AWSOpenSearch) (metadata : List Int) :
    ∀ (vs : List Vec) (i : Nat) (ds : List Json),
      build_insert_data_from self metadata i vs = .ok ds → ds.length = vs.length := by
  intro vs
  induction vs with
  | nil =>
    intro i ds h
    simp [build_insert_data_from] at h
    simp [← h]
  | cons v vs ih =>
    intro i ds h
    unfold build_insert_data_from at h
    cases hm : metadata[i]? with
    | none => rw [hm] at h; simp at h
    | some docId =>
      rw [hm] at h
      cases hb : build_insert_data_from self metadata (i + 1) vs with
      | ok rest =>
        rw [hb] at h
        simp only [Except.ok.injEq] at h
        subst h
        simp [ih (i + 1) rest hb]
      | error e => rw [hb] at h; simp at h

lemma build_insert_data_length (self : AWSOpenSearch) (embeddings : List Vec)
    (metadata : List Int) (ds : List Json)
    (h : build_insert_data self embeddings metadata = .ok ds) :
    ds.length = embeddings.length :=
  build_insert_data_from_length self metadata embeddings 0 ds h

lemma build_insert_data_from_short (self : AWSOpenSearch) (metadata : List Int) :
    ∀ (vs : List Vec) (i : Nat), metadata.length < i + vs.length →
      i ≤ metadata.length →
      build_insert_data_from self metadata i vs = .error .indexError := by
  intro vs
  induction vs with
  | nil =>
    intro i h1 h2
    simp only [List.length_nil] at h1
    omega
  | cons v vs ih =>
    intro i h1 h2
    simp only [List.length_cons] at h1
    rcases Nat.lt_or_ge i metadata.length with hi | hi
    · have hm : metadata[i]? = some metadata[i] := List.getElem?_eq_getElem hi
      have hrec := ih (i + 1) (by omega) (by omega)
      simp [build_insert_data_from, hm, hrec]
    · have hm : metadata[i]? = none := List.getElem?_eq_none (by omega)
      simp [build_insert_data_from, hm]

lemma build_insert_data_short (self : AWSOpenSearch) (embeddings : List Vec)
    (metadata : List Int) (h : metadata.length < embeddings.length) :
    build_insert_data self embeddings metadata = .error .indexError :=
  build_insert_data_from_short self metadata embeddings 0 (by omega) (by omega)

lemma lookup_cons_self (k : String) (v : Json) (l : List (String × Json)) :
    List.lookup k ((k, v) :: l) = some v := by
  simp [List.lookup]

lemma lookup_cons_ne (a k : String) (v : Json) (l : List (String × Json)) (h : a ≠ k) :
    List.lookup a ((k, v) :: l) = List.lookup a l := by
  simp [List.lookup, beq_eq_false_iff_ne.mpr h]

lemma lookup_map_const_append (K : Json) (rest : List (String × Json)) :
    ∀ (cats : List String) (c : String), c ∈ cats →
      List.lookup c (cats.map (fun x => (x, K)) ++ rest) = some K := by
  intro cats
  induction cats with
  | nil => intro c hc; cases hc
  | cons x xs ih =>
    intro c hc
    by_cases hx : c = x
    · subst hx; simp [List.lookup]
    · have hc2 : c ∈ xs := by
        rcases List.mem_cons.mp hc with h | h
        · exact absurd h hx
        · exact h
      simp [List.lookup, beq_eq_false_iff_ne.mpr hx, ih c hc2]

lemma lookup_not_mem_append (K V : Json) (v : String) :
    ∀ (cats : List String), v ∉ cats →
      List.lookup v (cats.map (fun x => (x, K)) ++ [(v, V)]) = some V := by
  intro cats
  induction cats with
  | nil => intro _; simp [List.lookup]
  | cons x xs ih =>
    intro hv
    have hx : v ≠ x := fun h => hv (by simp [h])
    have hxs : v ∉ xs := fun h => hv (by simp [h])
    simp [List.lookup, beq_eq_false_iff_ne.mpr hx, ih hxs]

/-- C3: need_normalize_cosine returns true exactly when the configured
engine is the faiss variant and the configured metric is COSINE, and false
for every other (engine, metric) combination; in this embedding it is a
pure function of the stored configuration. -/
theorem need_normalize_cosine_iff (self : AWSOpenSearch) :
    need_normalize_cosine self = true ↔
      (self.case_config.engine = AWSOS_Engine.faiss ∧
        self.case_config.metric_type = MetricType.COSINE) := by
  by_cases h : self.case_config.engine = AWSOS_Engine.faiss ∧
      self.case_config.metric_type = MetricType.COSINE
  · simp [need_normalize_cosine, h]
  · simp [need_normalize_cosine, h]

/-- C7: when the indices.create call raises, _create_index re-raises the
same error to the caller after logging a warning naming the index and the
error; the error is never swallowed. -/
theorem create_index_error_logged_and_reraised (self : AWSOpenSearch) (e : String) :
    (create_index_run self (.error e)).result = .error e ∧
    (create_index_run self (.error e)).logs =
      [.warning ("Failed to create index: " ++ self.index_name ++ " error: " ++ e)] :=
  ⟨rfl, rfl⟩

/-- C9: the filters parameter of search_embedding is never read; for any
two filter arguments the whole observable behaviour (issued body and
result, under the same engine response function) is identical. -/
theorem search_filters_never_read (self : AWSOpenSearch) (query : Vec) (k : Nat)
    (f1 f2 : Option Json) (search : Json → Except String SearchResponse) :
    search_embedding self query k f1 search = search_embedding self query k f2 search :=
  rfl

/-- C2 counterexample: a scoped init session whose body raises leaves the
client reference set (the generator has no try/finally, so the cleanup
after the yield does not run on the exception path). -/
theorem init_release_counterexample :
    ((init_run
        { client := none, dim := 4, index_name := "vdb_bench_index",
          id_col_name := "id", vector_col_name := "embedding",
          case_config := { engine := .faiss, metric_type := .COSINE, index_param := .null } }
        (fun s => (s, some (.exc "boom")))).1.client = some () ∧
      (init_run
        { client := none, dim := 4, index_name := "vdb_bench_index",
          id_col_name := "id", vector_col_name := "embedding",
          case_config := { engine := .faiss, metric_type := .COSINE, index_param := .null } }
        (fun s => (s, some (.exc "boom")))).2 = some (.exc "boom")) :=
  ⟨rfl, rfl⟩

/-- C2 amended: the client reference is cleared on the normal-exit path of
the scoped init session, but when the body raises, the state is returned
exactly as the body left it and the client reference is not cleared by
init. -/
theorem init_release_paths (self : AWSOpenSearch)
    (body : AWSOpenSearch → AWSOpenSearch × Option PyErr) :
    ((init_run self body).2 = none → (init_run self body).1.client = none) ∧
    (∀ s2 e, body { self with client := some () } = (s2, some e) →
      init_run self body = (s2, some e)) := by
  constructor
  · intro h
    rcases hb : body { self with client := some () } with ⟨s2, oe⟩
    cases oe with
    | none => simp [init_run, hb]
    | some e => simp [init_run, hb] at h
  · intro s2 e hb
    simp [init_run, hb]

/-- C2 witness: the amended claim at concrete inputs, one body exiting
normally and one raising. -/
theorem init_release_paths_witness :
    (init_run
        { client := none, dim := 4, index_name := "vdb_bench_index",
          id_col_name := "id", vector_col_name := "embedding",
          case_config := { engine := .faiss, metric_type := .COSINE, index_param := .null } }
        (fun s => (s, none))).1.client = none ∧
    init_run
        { client := none, dim := 4, index_name := "vdb_bench_index",
          id_col_name := "id", vector_col_name := "embedding",
          case_config := { engine := .faiss, metric_type := .COSINE, index_param := .null } }
        (fun s => (s, some (.exc "x"))) =
      ({ client := some (), dim := 4, index_name := "vdb_bench_index",
          id_col_name := "id", vector_col_name := "embedding",
          case_config := { engine := .faiss, metric_type := .COSINE, index_param := .null } },
        some (.exc "x")) :=
  ⟨(init_release_paths _ _).1 rfl, (init_release_paths _ _).2 _ _ rfl⟩

/-- C8: with no active session (client absent), insert_embeddings and
search_embedding both fail with the precondition assertion error for every
input, issuing no remote request. -/
theorem operations_require_open (self : AWSOpenSearch)
    (hc : self.client = none)
    (bulk : Nat → Except String (List (Bool × Json)))
    (embeddings : List Vec) (metadata : List Int) (fuel attempt : Nat)
    (query : Vec) (k : Nat) (filters : Option Json)
    (search : Json → Except String SearchResponse) :
    insert_embeddings_run self bulk embeddings metadata (fuel + 1) attempt =
      ([], some (.error .assertionError)) ∧
    search_embedding self query k filters search = .error .assertionError := by
  constructor
  · simp [insert_embeddings_run, hc]
  · simp [search_embedding, hc]

/-- C8 witness: the precondition failure at concrete inputs. -/
theorem operations_require_open_witness :
    insert_embeddings_run
        { client := none, dim := 4, index_name := "vdb_bench_index",
          id_col_name := "id", vector_col_name := "embedding",
          case_config := { engine := .faiss, metric_type := .COSINE, index_param := .null } }
        (fun _ => .ok []) [[1]] [0] 1 0 = ([], some (.error .assertionError)) ∧
    search_embedding
        { client := none, dim := 4, index_name := "vdb_bench_index",
          id_col_name := "id", vector_col_name := "embedding",
          case_config := { engine := .faiss, metric_type := .COSINE, index_param := .null } }
        [1] 10 none (fun _ => .ok ⟨[]⟩) = .error .assertionError :=
  operations_require_open _ rfl (fun _ => .ok []) [[1]] [0] 0 0 [1] 10 none (fun _ => .ok ⟨[]⟩)

/-- C1: when every bulk attempt raises, insert_embeddings retries without
bound: for every fuel the run is still unfinished, and the event trace is
fuel repetitions of the same bulk request (built from the same embeddings
and metadata, with no retry counter) each followed by the fixed 10-second
sleep. -/
theorem insert_retry_unbounded (self : AWSOpenSearch)
    (bulk : Nat → Except String (List (Bool × Json)))
    (embeddings : List Vec) (metadata : List Int) (ds : List Json)
    (hc : self.client = some ())
    (hb : build_insert_data self embeddings metadata = .ok ds)
    (hfail : ∀ n, ∃ e, bulk n = .error e) :
    ∀ fuel attempt,
      (insert_embeddings_run self bulk embeddings metadata fuel attempt).2 = none ∧
      (insert_embeddings_run self bulk embeddings metadata fuel attempt).1 =
        List.flatten (List.replicate fuel [InsertEvent.bulkRequest ds, InsertEvent.sleep 10]) := by
  intro fuel
  induction fuel with
  | zero => intro attempt; exact ⟨rfl, rfl⟩
  | succ n ih =>
    intro attempt
    obtain ⟨e, he⟩ := hfail attempt
    obtain ⟨ih1, ih2⟩ := ih (attempt + 1)
    constructor
    · simp [insert_embeddings_run, hc, hb, he, ih1]
    · simp [insert_embeddings_run, hc, hb, he, ih2, List.replicate_succ]

/-- C1 witness: a run with an always-failing bulk phase at concrete
inputs, observed for two attempts. -/
theorem insert_retry_unbounded_witness :
    (insert_embeddings_run
        { client := some (), dim := 4, index_name := "vdb_bench_index",
          id_col_name := "id", vector_col_name := "embedding",
          case_config := { engine := .faiss, metric_type := .COSINE, index_param := .null } }
        (fun _ => .error "boom") [[7]] [3] 2 0).2 = none ∧
    (insert_embeddings_run
        { client := some (), dim := 4, index_name := "vdb_bench_index",
          id_col_name := "id", vector_col_name := "embedding",
          case_config := { engine := .faiss, metric_type := .COSINE, index_param := .null } }
        (fun _ => .error "boom") [[7]] [3] 2 0).1 =
      List.flatten (List.replicate 2
        [InsertEvent.bulkRequest
          [.obj [("_index", .str "vdb_bench_index"), ("_id", .num 3),
                 ("embedding", .arr [.num 7])]],
         InsertEvent.sleep 10]) :=
  insert_retry_unbounded
    { client := some (), dim := 4, index_name := "vdb_bench_index",
      id_col_name := "id", vector_col_name := "embedding",
      case_config := { engine := .faiss, metric_type := .COSINE, index_param := .null } }
    (fun _ => .error "boom") [[7]] [3]
    [.obj [("_index", .str "vdb_bench_index"), ("_id", .num 3), ("embedding", .arr [.num 7])]]
    rfl rfl (fun _ => ⟨"boom", rfl⟩) 2 0

/-- C4: when the bulk phase completes without raising, insert_embeddings
returns (count, none) with count the number of enumerated embeddings,
whatever (success, item) partition the bulk response reports; exactly one
bulk request is issued and no sleep occurs. -/
theorem insert_success_returns_attempted_count (self : AWSOpenSearch)
    (bulk : Nat → Except String (List (Bool × Json)))
    (embeddings : List Vec) (metadata : List Int) (ds : List Json)
    (items : List (Bool × Json)) (fuel attempt : Nat)
    (hc : self.client = some ())
    (hb : build_insert_data self embeddings metadata = .ok ds)
    (hbulk : bulk attempt = .ok items) :
    insert_embeddings_run self bulk embeddings metadata (fuel + 1) attempt =
      ([.bulkRequest ds], some (.ok (embeddings.length, none))) := by
  have hlen := build_insert_data_length self embeddings metadata ds hb
  simp [insert_embeddings_run, hc, hb, hbulk, hlen]

/-- C4 witness: two embeddings with a bulk response reporting one failed
item still return (2, none). -/
theorem insert_success_returns_attempted_count_witness :
    insert_embeddings_run
        { client := some (), dim := 4, index_name := "vdb_bench_index",
          id_col_name := "id", vector_col_name := "embedding",
          case_config := { engine := .faiss, metric_type := .COSINE, index_param := .null } }
        (fun _ => .ok [(false, .null), (true, .null)]) [[7], [8]] [3, 4] 1 0 =
      ([.bulkRequest
          [.obj [("_index", .str "vdb_bench_index"), ("_id", .num 3),
                 ("embedding", .arr [.num 7])],
           .obj [("_index", .str "vdb_bench_index"), ("_id", .num 4),
                 ("embedding", .arr [.num 8])]]],
        some (.ok (2, none))) :=
  insert_success_returns_attempted_count _ _ [[7], [8]] [3, 4]
    [.obj [("_index", .str "vdb_bench_index"), ("_id", .num 3), ("embedding", .arr [.num 7])],
     .obj [("_index", .str "vdb_bench_index"), ("_id", .num 4), ("embedding", .arr [.num 8])]]
    [(false, .null), (true, .null)] 0 0 rfl rfl rfl

/-- C10: when the metadata list is shorter than the embeddings, the
document-building loop raises IndexError before the try block: the run
fails immediately with the indexing error, with no bulk request issued and
no sleep, for any surrounding fuel. -/
theorem insert_metadata_short_raises_before_retry (self : AWSOpenSearch)
    (bulk : Nat → Except String (List (Bool × Json)))
    (embeddings : List Vec) (metadata : List Int) (fuel attempt : Nat)
    (hc : self.client = some ())
    (hlen : metadata.length < embeddings.length) :
    insert_embeddings_run self bulk embeddings metadata (fuel + 1) attempt =
      ([], some (.error .indexError)) := by
  have hb := build_insert_data_short self embeddings metadata hlen
  simp [insert_embeddings_run, hc, hb]

/-- C10 witness: two embeddings with one metadata entry fail at once with
the indexing error, even though the bulk environment would keep failing
and fuel remains. -/
theorem insert_metadata_short_witness :
    insert_embeddings_run
        { client := some (), dim := 4, index_name := "vdb_bench_index",
          id_col_name := "id", vector_col_name := "embedding",
          case_config := { engine := .faiss, metric_type := .COSINE, index_param := .null } }
        (fun _ => .error "x") [[7], [8]] [3] 5 0 = ([], some (.error .indexError)) :=
  insert_metadata_short_raises_before_retry _ (fun _ => .error "x") [[7], [8]] [3] 4 0
    rfl (by decide)

/-- C5: the search body sets size to k, the knn clause on the vector field
carries k, and _source excludes the vector field; on a successful response
the result is the hit ids in response order, hence no longer than k when
the response respects the requested size. -/
theorem search_embedding_spec (self : AWSOpenSearch) (query : Vec) (k : Nat)
    (filters : Option Json) (search : Json → Except String SearchResponse)
    (resp : SearchResponse)
    (hc : self.client = some ())
    (hs : search (search_body self query k) = .ok resp)
    (hk : resp.hits.length ≤ k) :
    (search_body self query k).lookup "size" = some (.num k) ∧
    ((((search_body self query k).lookup "query").bind
        (fun q => Json.lookup q "knn")).bind
        (fun q => Json.lookup q self.vector_col_name)).bind
        (fun q => Json.lookup q "k") = some (.num k) ∧
    ((search_body self query k).lookup "_source").bind
        (fun s => Json.lookup s "exclude") = some (.str self.vector_col_name) ∧
    search_embedding self query k filters search = .ok (resp.hits.map (fun d => d.id)) ∧
    (resp.hits.map (fun d => d.id)).length ≤ k := by
  refine ⟨?_, ?_, ?_, ?_, ?_⟩
  · simp [search_body, Json.lookup, List.lookup]
  · simp [search_body, Json.lookup, List.lookup]
  · simp [search_body, Json.lookup, List.lookup]
  · simp [search_embedding, hc, hs]
  · simpa using hk

/-- C5 witness: a concrete search returning two hits for k = 3. -/
theorem search_embedding_spec_witness :
    search_embedding
        { client := some (), dim := 4, index_name := "vdb_bench_index",
          id_col_name := "id", vector_col_name := "embedding",
          case_config := { engine := .faiss, metric_type := .COSINE, index_param := .null } }
        [1, 2] 3 none (fun _ => .ok ⟨[⟨5⟩, ⟨9⟩]⟩) = .ok [5, 9] :=
  (search_embedding_spec _ [1, 2] 3 none (fun _ => .ok ⟨[⟨5⟩, ⟨9⟩]⟩) ⟨[⟨5⟩, ⟨9⟩]⟩
    rfl rfl (by decide)).2.2.2.1

/-- C6: _create_index always issues the creation request for the
configured index with the built body; the settings disable automatic
refresh, set zero replicas and five shards, and the mappings declare the
integer id field, keyword category fields, and the knn_vector field with
the configured dimension and method parameters. -/
theorem create_index_request_spec (self : AWSOpenSearch)
    (createResult : Except String Unit)
    (hid : self.id_col_name ∉ category_col_names)
    (hvid : self.vector_col_name ≠ self.id_col_name)
    (hvcat : self.vector_col_name ∉ category_col_names) :
    (create_index_run self createResult).request = (self.index_name, create_index_body self) ∧
    (create_index_settings.lookup "index").bind
        (fun j => Json.lookup j "refresh_interval") = some (.str "-1") ∧
    (create_index_settings.lookup "index").bind
        (fun j => Json.lookup j "number_of_replicas") = some (.num 0) ∧
    (create_index_settings.lookup "index").bind
        (fun j => Json.lookup j "number_of_shards") = some (.num 5) ∧
    ((create_index_mappings self).lookup "properties").bind
        (fun p => Json.lookup p self.id_col_name) =
      some (.obj [("type", .str "integer")]) ∧
    (∀ c ∈ category_col_names,
      ((create_index_mappings self).lookup "properties").bind
          (fun p => Json.lookup p c) = some (.obj [("type", .str "keyword")])) ∧
    ((create_index_mappings self).lookup "properties").bind
        (fun p => Json.lookup p self.vector_col_name) =
      some (.obj [("type", .str "knn_vector"),
                  ("dimension", .num self.dim),
                  ("method", self.case_config.index_param)]) := by
  have hprops : (create_index_mappings self).lookup "properties" =
      some (.obj (
        (self.id_col_name, .obj [("type", .str "integer")]) ::
        (category_col_names.map
            (fun categoryCol => (categoryCol, .obj [("type", .str "keyword")]))
          ++ [(self.vector_col_name, .obj [
                ("type", .str "knn_vector"),
                ("dimension", .num self.dim),
                ("method", self.case_config.index_param)])]))) := by
    show List.lookup "properties" _ = _
    rw [lookup_cons_self]
    rw [List.singleton_append, List.cons_append]
  refine ⟨?_, ?_, ?_, ?_, ?_, ?_, ?_⟩
  · cases createResult <;> rfl
  · simp [create_index_settings, Json.lookup, List.lookup]
  · simp [create_index_settings, Json.lookup, List.lookup]
  · simp [create_index_settings, Json.lookup, List.lookup]
  · rw [hprops]
    simp only [Option.some_bind]
    show List.lookup self.id_col_name _ = _
    exact lookup_cons_self _ _ _
  · intro c hc
    have hcid : c ≠ self.id_col_name := fun h => hid (h ▸ hc)
    rw [hprops]
    simp only [Option.some_bind]
    show List.lookup c _ = _
    rw [lookup_cons_ne _ _ _ _ hcid]
    exact lookup_map_const_append _ _ category_col_names c hc
  · rw [hprops]
    simp only [Option.some_bind]
    show List.lookup self.vector_col_name _ = _
    rw [lookup_cons_ne _ _ _ _ hvid]
    exact lookup_not_mem_append _ _ self.vector_col_name category_col_names hvcat

/-- C6 witness: the vector-field mapping of the default configuration. -/
theorem create_index_request_spec_witness :
    ((create_index_mappings
        { client := none, dim := 4, index_name := "vdb_bench_index",
          id_col_name := "id", vector_col_name := "embedding",
          case_config := { engine := .faiss, metric_type := .COSINE, index_param := .null } }).lookup
        "properties").bind (fun p => Json.lookup p "embedding") =
      some (.obj [("type", .str "knn_vector"), ("dimension", .num 4), ("method", .null)]) :=
  (create_index_request_spec _ (.ok ()) (by decide) (by decide) (by decide)).2.2.2.2.2.2

end VDB
